import Mathlib

/-!
Verification of the Mushroom Kingdom Mashup Maker game engine.

The definitions below are a shallow embedding of the repository's
TypeScript source: the geometry module (`src/utils/physics.ts` and the
revision carrying `getCollisionSide`), and the simulation engine
(`GameEngine`'s `update` loop with its collision resolver, damage path,
ability dispatch and entity interaction rules).  JavaScript numbers are
modelled as rationals (`ℚ`); all arithmetic in the engine is exact
decimal arithmetic, so `ℚ` is a faithful carrier.
-/

/-!
Equality tests on numeric scalars are routed through the boolean
comparators so that concrete states evaluate efficiently during proof
checking; the instances are propositionally the standard ones.
-/

instance (priority := 5000) : DecidableEq ℕ := fun a b =>
  decidable_of_iff ((a == b) = true) (by rw [beq_iff_eq])

instance (priority := 5000) : DecidableEq ℤ := fun a b =>
  decidable_of_iff ((a == b) = true) (by rw [beq_iff_eq])

instance (priority := 5000) : DecidableEq ℚ := fun a b =>
  decidable_of_iff ((a.num == b.num && a.den == b.den) = true)
    (by
      rw [Bool.and_eq_true, beq_iff_eq, beq_iff_eq]
      constructor
      · rintro ⟨h1, h2⟩
        exact Rat.ext h1 h2
      · rintro rfl
        exact ⟨rfl, rfl⟩)

/-- Axis-aligned rectangle, as in `src/utils/physics.ts`. -/
structure Rect where
  x : ℚ
  y : ℚ
  w : ℚ
  h : ℚ
  deriving DecidableEq, Repr

/-- Function `checkRectCollision` from `src/utils/physics.ts`: AABB overlap test with
four strict inequalities. -/
def checkRectCollision (r1 r2 : Rect) : Bool :=
  decide (r1.x < r2.x + r2.w ∧ r1.x + r1.w > r2.x ∧
          r1.y < r2.y + r2.h ∧ r1.y + r1.h > r2.y)

/-- The `CollisionSide` type from the physics revision. -/
inductive CollisionSide where
  | top
  | bottom
  | left
  | right
  | none
  deriving DecidableEq, Repr

/-- Horizontal penetration depth, as computed inside `getCollisionSide`. -/
def overlapX (r1 r2 : Rect) : ℚ :=
  min (r1.x + r1.w - r2.x) (r2.x + r2.w - r1.x)

/-- Vertical penetration depth, as computed inside `getCollisionSide`. -/
def overlapY (r1 r2 : Rect) : ℚ :=
  min (r1.y + r1.h - r2.y) (r2.y + r2.h - r1.y)

/-- Function `getCollisionSide` from the physics revision: minimum-translation-vector
side classification of `r1` (moving) against `r2` (static). -/
def getCollisionSide (r1 r2 : Rect) : CollisionSide :=
  if checkRectCollision r1 r2 = false then .none
  else if overlapX r1 r2 < overlapY r1 r2 then
    (if r1.x + r1.w > r2.x ∧ r1.x < r2.x then .right else .left)
  else
    (if r1.y + r1.h > r2.y ∧ r1.y < r2.y then .bottom else .top)

/-- Spec-worded definition (§4.1): two rectangles share positive area on both
axes, i.e. the interval intersections on the x- and y-axes both have positive
length.  Used to compare the implementation against the specification. -/
def sharesPositiveArea (a b : Rect) : Prop :=
  max a.x b.x < min (a.x + a.w) (b.x + b.w) ∧
  max a.y b.y < min (a.y + a.h) (b.y + b.h)

instance (a b : Rect) : Decidable (sharesPositiveArea a b) := by
  unfold sharesPositiveArea; infer_instance

/-! ## The game engine (the `GameEngine` component's `update` loop) -/

/-- Physics constants from `src/constants.ts`. -/
def TILE_SIZE : ℚ := 32

/-- Gravity constant from `src/constants.ts`. -/
def GRAVITY : ℚ := 0.5

/-- Jump impulse from `src/constants.ts`. -/
def JUMP_FORCE : ℚ := -11.5

/-- Maximum horizontal speed from `src/constants.ts`. -/
def MOVE_SPEED : ℚ := 4.2

/-- Friction multiplier from `src/constants.ts`. -/
def FRICTION : ℚ := 0.84

/-- Climb speed from `src/constants.ts`. -/
def CLIMB_SPEED : ℚ := 3.2

/-- Tile kinds from `src/types.ts`. -/
inductive TileType where
  | Empty
  | Ground
  | Brick
  | Question
  | HardBlock
  | PipeLeft
  | PipeRight
  | Spike
  | Goal
  | CoinBlock
  | VineBase
  deriving DecidableEq, Repr

/-- Entity kinds from `src/types.ts`. -/
inductive EntityType where
  | Player
  | Goomba
  | GoombaDead
  | Coin
  | Mushroom
  | SuperMushroom
  | Goal
  | Vine
  | VineSegment
  | Fireball
  | Shield
  deriving DecidableEq, Repr

/-- Characters from `src/types.ts`. -/
inductive CharacterType where
  | Mario
  | Luigi
  | Toad
  | Peach
  deriving DecidableEq, Repr

/-- Simulated object as used by the engine: position, size, velocity and
lifecycle flags.  Optional JS fields that default to `0`/`false` are carried
as plain values. -/
structure Entity where
  id : ℕ
  type : EntityType
  x : ℚ
  y : ℚ
  w : ℚ
  h : ℚ
  vx : ℚ := 0
  vy : ℚ := 0
  dead : Bool := false
  lifespan : Option ℤ := Option.none
  spawning : Bool := false
  spawnStartY : Option ℚ := Option.none
  deriving DecidableEq, Repr

/-- Sampled input signals. -/
structure Keys where
  left : Bool := false
  right : Bool := false
  up : Bool := false
  down : Bool := false
  jump : Bool := false
  ability : Bool := false
  deriving DecidableEq, Repr

/-- The engine's `GameState` (the `gameState` ref).  `winCalls`/`dieCalls`
count the invocations of the `onWin`/`onDie` terminal callbacks; `nextId`
models the id generator for spawned entities. -/
structure GameState where
  keys : Keys
  player : Option Entity
  entities : List Entity
  grid : List TileType
  levelWidth : ℕ
  levelHeight : ℕ
  camera : ℚ := 0
  canJump : Bool := false
  isClimbing : Bool := false
  isBig : Bool := false
  invincibilityTimer : ℕ := 0
  abilityCooldown : ℕ := 0
  gameOver : Bool := false
  coins : ℕ := 0
  winCalls : ℕ := 0
  dieCalls : ℕ := 0
  nextId : ℕ := 0
  deriving DecidableEq, Repr

/-- The collision rectangle of an entity. -/
def entRect (e : Entity) : Rect := ⟨e.x, e.y, e.w, e.h⟩

/-- Tile lookup `getTile` with the out-of-bounds guard returning `Empty`. -/
def getTile (s : GameState) (c r : ℤ) : TileType :=
  if r < 0 ∨ r ≥ (s.levelHeight : ℤ) ∨ c < 0 ∨ c ≥ (s.levelWidth : ℤ) then .Empty
  else s.grid.getD (r * s.levelWidth + c).toNat .Empty

/-- Inclusive integer range `[a, b]` as a list (the `for (i = a; i <= b; i++)`
iteration space). -/
def intRange (a b : ℤ) : List ℤ :=
  (List.range (b - a + 1).toNat).map (fun i => a + (i : ℤ))

/-- Terminal transition `handleDeath`: set the flag and invoke `onDie`. -/
def handleDeath (s : GameState) : GameState :=
  {s with gameOver := true, dieCalls := s.dieCalls + 1}

/-- Terminal transition `handleWin`: set the flag and invoke `onWin`. -/
def handleWin (s : GameState) : GameState :=
  {s with gameOver := true, winCalls := s.winCalls + 1}

/-- Damage path `handleDamage` (invulnerability no-op, Big shrink with
invulnerability window forward nudge, otherwise death). -/
def handleDamage (s : GameState) : GameState :=
  if s.invincibilityTimer > 0 then s
  else if s.isBig then
    let s1 := {s with isBig := false, invincibilityTimer := 120}
    match s1.player with
    | Option.some p =>
        let p2 := {p with y := p.y + (TILE_SIZE * 1.5 - TILE_SIZE * 0.8), vy := -3}
        {s1 with player := Option.some p2}
    | Option.none => s1
  else handleDeath s

/-- Spawner `spawnMushroom`: push a rising Mushroom collectible for grid cell
`(gx, gy)`. -/
def spawnMushroom (gx gy : ℤ) (s : GameState) : GameState :=
  {s with
    entities := s.entities ++ [{
      id := s.nextId, type := .Mushroom,
      x := (gx : ℚ) * TILE_SIZE, y := (gy : ℚ) * TILE_SIZE + TILE_SIZE,
      w := TILE_SIZE, h := TILE_SIZE, vx := 0, vy := -1,
      spawning := true, spawnStartY := Option.some ((gy : ℚ) * TILE_SIZE) }],
    nextId := s.nextId + 1}

/-- Collision axes. -/
inductive Axis where
  | x
  | y
  deriving DecidableEq, Repr

/-- Solid-tile resolution of the player against one grid cell: the first half
of the loop body of `handleMapCollision` (position clamp, velocity zeroing,
grounded flag, and the Question/Brick head-bump side effects). -/
def mapCollisionSolid (axis : Axis) (s : GameState) (e : Entity)
    (tile : TileType) (tileRect : Rect) (rr cc : ℤ) : GameState :=
  if tile ≠ .Empty ∧ tile ≠ .Spike ∧ tile ≠ .VineBase then
    if checkRectCollision (entRect e) tileRect then
      if axis = .x then
        let e1 := if e.vx > 0 then {e with x := tileRect.x - e.w}
                  else if e.vx < 0 then {e with x := tileRect.x + tileRect.w}
                  else e
        {s with player := Option.some ({e1 with vx := 0})}
      else
        if e.vy > 0 then
          {s with player := Option.some ({e with y := tileRect.y - e.h, vy := 0}),
                  canJump := true}
        else if e.vy < 0 then
          let e1 := {e with y := tileRect.y + tileRect.h, vy := 0}
          let s2 := {s with player := Option.some e1}
          if tile = .Question then
            spawnMushroom cc rr
              {s2 with grid := s2.grid.set (rr * s.levelWidth + cc).toNat .HardBlock}
          else if tile = .Brick ∧ s.isBig then
            {s2 with grid := s2.grid.set (rr * s.levelWidth + cc).toNat .Empty}
          else s2
        else {s with player := Option.some ({e with vy := 0})}
    else s
  else s

/-- The Spike hazard check: the second half of the loop body, evaluated
independently of solidity on every frame the overlap persists. -/
def mapCollisionSpike (s1 : GameState) (tile : TileType) (tileRect : Rect) :
    GameState :=
  if tile = .Spike then
    match s1.player with
    | Option.some e1 =>
        if checkRectCollision (entRect e1) tileRect then handleDamage s1 else s1
    | Option.none => s1
  else s1

/-- One iteration of the cell loop in `handleMapCollision` (player version):
bounds guard, then solid resolution with tile side effects, then the
independent spike hazard check. -/
def mapCollisionCell (axis : Axis) (s : GameState) (rc : ℤ × ℤ) : GameState :=
  match s.player with
  | Option.none => s
  | Option.some e =>
    let r := rc.1
    let c := rc.2
    if r < 0 ∨ r ≥ (s.levelHeight : ℤ) ∨ c < 0 ∨ c ≥ (s.levelWidth : ℤ) then s
    else
      mapCollisionSpike
        (mapCollisionSolid axis s e (getTile s c r)
          ⟨(c : ℚ) * TILE_SIZE, (r : ℚ) * TILE_SIZE, TILE_SIZE, TILE_SIZE⟩ r c)
        (getTile s c r)
        ⟨(c : ℚ) * TILE_SIZE, (r : ℚ) * TILE_SIZE, TILE_SIZE, TILE_SIZE⟩

/-- The grid cells spanned by an entity's rectangle (the inclusive
column/row ranges computed at the top of both collision handlers). -/
def cellRange (e : Entity) : List (ℤ × ℤ) :=
  let startCol := ⌊e.x / TILE_SIZE⌋
  let endCol := ⌊(e.x + e.w) / TILE_SIZE⌋
  let startRow := ⌊e.y / TILE_SIZE⌋
  let endRow := ⌊(e.y + e.h) / TILE_SIZE⌋
  (intRange startRow endRow).flatMap fun r => (intRange startCol endCol).map fun c => (r, c)

/-- Player map collision `handleMapCollision`: sweep the spanned cells. -/
def handleMapCollision (axis : Axis) (s : GameState) : GameState :=
  match s.player with
  | Option.none => s
  | Option.some e => (cellRange e).foldl (mapCollisionCell axis) s

/-- Entity map collision `handleEntityMapCollision`: collision of a non-player entity with the
grid, reversing horizontal velocity on wall contact, plus the ledge
turn-around check. -/
def handleEntityMapCollision (s : GameState) (e0 : Entity) (axis : Axis) : Entity :=
  let e := (cellRange e0).foldl (fun e rc =>
    let r := rc.1
    let c := rc.2
    if r < 0 ∨ r ≥ (s.levelHeight : ℤ) ∨ c < 0 ∨ c ≥ (s.levelWidth : ℤ) then e
    else
      let tile := getTile s c r
      if tile ≠ .Empty ∧ tile ≠ .Spike then
        let tileRect : Rect := ⟨(c : ℚ) * TILE_SIZE, (r : ℚ) * TILE_SIZE, TILE_SIZE, TILE_SIZE⟩
        if checkRectCollision (entRect e) tileRect then
          if axis = .x then
            let e1 := if e.vx > 0 then {e with x := tileRect.x - e.w}
                      else if e.vx < 0 then {e with x := tileRect.x + tileRect.w}
                      else e
            {e1 with vx := -e1.vx}
          else
            let e1 := if e.vy > 0 then {e with y := tileRect.y - e.h}
                      else if e.vy < 0 then {e with y := tileRect.y + tileRect.h}
                      else e
            {e1 with vy := 0}
        else e
      else e) e0
  if e.spawning = false ∧ |e.vx| > 0.1 then
    let nextGridX := ⌊(e.x + e.w / 2 + e.vx * TILE_SIZE) / TILE_SIZE⌋
    let groundY := ⌊(e.y + e.h) / TILE_SIZE⌋
    if getTile s nextGridX groundY = .Empty then {e with vx := -e.vx} else e
  else e

/-- The `while` scan for the first non-`Empty` tile at or below `g` in
column `c` (Toad's ability), fuel-bounded by the remaining rows. -/
def findGroundY (s : GameState) (c : ℤ) : ℤ → ℕ → ℤ
  | g, 0 => g
  | g, fuel + 1 =>
      if g < (s.levelHeight : ℤ) ∧ getTile s c g = .Empty then
        findGroundY s c (g + 1) fuel
      else g

/-- Push one vine effect entity for grid cell `(gx, gy)`. -/
def pushVine (s : GameState) (gx gy : ℤ) : GameState :=
  {s with
    entities := s.entities ++ [{
      id := s.nextId, type := .Vine,
      x := (gx : ℚ) * TILE_SIZE + (TILE_SIZE - 16) / 2, y := (gy : ℚ) * TILE_SIZE,
      w := 16, h := TILE_SIZE, vx := 0, vy := 0,
      lifespan := Option.some 600 }],
    nextId := s.nextId + 1}

/-- The vine stacking loop of Toad's ability (`MAX_HEIGHT` iterations with the
two `break` conditions). -/
def vineLoop (pGridX : ℤ) : ℕ → ℤ → GameState → GameState
  | 0, _, s => s
  | fuel + 1, gridY, s =>
      if gridY < 0 then s
      else
        let tile := getTile s pGridX gridY
        if tile ≠ .Empty ∧ tile ≠ .Spike ∧ tile ≠ .PipeLeft then s
        else vineLoop pGridX fuel (gridY - 1) (pushVine s pGridX gridY)

/-- Ability dispatch `handleAbility`: per-character dispatch (Peach's shield timers, Toad's
vine sprout; Mario's fireball is not implemented). -/
def handleAbility (char : CharacterType) (s : GameState) : GameState :=
  match s.player with
  | Option.none => s
  | Option.some p =>
    match char with
    | .Peach => {s with invincibilityTimer := 180, abilityCooldown := 300}
    | .Toad =>
        let pGridX := ⌊(p.x + p.w / 2) / TILE_SIZE⌋
        let startY := ⌊(p.y + p.h) / TILE_SIZE⌋
        let groundY := findGroundY s pGridX startY ((s.levelHeight : ℤ) - startY).toNat
        if groundY ≥ (s.levelHeight : ℤ) then s
        else {(vineLoop pGridX 8 groundY s) with abilityCooldown := 120}
    | _ => s

/-- Movement/physics part of the entity sweep body (after the lifespan
bookkeeping): spawning rise, then gravity and per-axis grid collision for
Goombas and Mushrooms; returns `none` when the entity is swept out. -/
def stepEntityMove (s : GameState) (e : Entity) : Option Entity :=
  if e.spawning then
    let e1 := {e with y := e.y + e.vy}
    let e2 :=
      match e1.spawnStartY with
      | Option.some sy =>
          if e1.y < sy - TILE_SIZE then
            {e1 with y := sy - TILE_SIZE, spawning := false, vy := 0, vx := 2}
          else if e1.type = .Mushroom ∧ e1.vy = 0 then {e1 with vy := -1}
          else e1
      | Option.none =>
          if e1.type = .Mushroom ∧ e1.vy = 0 then {e1 with vy := -1} else e1
    Option.some e2
  else
    let e1 :=
      if e.dead = false ∧ (e.type = .Goomba ∨ e.type = .Mushroom) then
        let ea := {e with vy := e.vy + GRAVITY}
        let eb := {ea with x := ea.x + ea.vx}
        let ec := handleEntityMapCollision s eb .x
        let ed := {ec with y := ec.y + ec.vy}
        handleEntityMapCollision s ed .y
      else e
    if e1.dead then Option.none else Option.some e1

/-- One entity of the `entities.filter` sweep: lifespan countdown with
removal, then movement/physics. -/
def stepEntity (s : GameState) (e : Entity) : Option Entity :=
  match e.lifespan with
  | Option.some l =>
      if l - 1 ≤ 0 then Option.none
      else stepEntityMove s {e with lifespan := Option.some (l - 1)}
  | Option.none => stepEntityMove s e

/-- One entity of the player-entity interaction loop: goal, coin, mushroom,
vine and goomba (stomp vs. damage) dispatch. -/
def interactStep (s : GameState) (e : Entity) : GameState × Entity :=
  match s.player with
  | Option.none => (s, e)
  | Option.some p =>
    if checkRectCollision (entRect p) (entRect e) then
      match e.type with
      | .Goal => (handleWin s, e)
      | .Coin => ({s with coins := s.coins + 1}, {e with dead := true})
      | .Mushroom =>
          ({s with isBig := true, invincibilityTimer := 60}, {e with dead := true})
      | .Vine =>
          if s.keys.up ∨ s.keys.down then
            ({s with isClimbing := true, canJump := true,
                     player := Option.some ({p with vy := 0})}, e)
          else (s, e)
      | .Goomba =>
          if p.vy > 0 ∧ p.y + p.h - p.vy ≤ e.y + e.h * 0.5 then
            ({s with player := Option.some ({p with vy := JUMP_FORCE * 0.5})},
             {e with dead := true})
          else (handleDamage s, e)
      | _ => (s, e)
    else (s, e)

/-- The player-entity interaction loop over the live entity list, threading
the state and keeping each entity's in-place mutations. -/
def interactLoop (s : GameState) : List Entity → GameState × List Entity
  | [] => (s, [])
  | e :: rest =>
      let se := interactStep s e
      let srest := interactLoop se.1 rest
      (srest.1, se.2 :: srest.2)

/-- Input handling and physics integration for the player (size-form height
interpolation, timer decrements, horizontal input and friction with the
epsilon snap and speed clamp, gravity or climbing, the vertical speed clamp,
and the one-shot jump), producing the state just before ability dispatch. -/
def integratePlayer (char : CharacterType) (s0 : GameState) (p0 : Entity) :
    GameState :=
  let targetH : ℚ := if s0.isBig then TILE_SIZE * 1.5 else TILE_SIZE * 0.8
  let p1 := if |p0.h - targetH| > 0.01 then
      {p0 with y := if targetH > p0.h then p0.y - (targetH - p0.h) else p0.y,
               h := targetH}
    else p0
  let cd1 := if s0.abilityCooldown > 0 then s0.abilityCooldown - 1
             else s0.abilityCooldown
  let inv1 := if s0.invincibilityTimer > 0 then s0.invincibilityTimer - 1
              else s0.invincibilityTimer
  let vxA := if s0.keys.left then p1.vx - 1 else p1.vx
  let vxB := if s0.keys.right then vxA + 1 else vxA
  let vxC := vxB * FRICTION
  let vxD := if |vxC| < 0.1 then 0 else vxC
  let vxE := if vxD > MOVE_SPEED then MOVE_SPEED else vxD
  let vxF := if vxE < -MOVE_SPEED then -MOVE_SPEED else vxE
  let vyA := if s0.isClimbing then
      (if s0.keys.down then CLIMB_SPEED else if s0.keys.up then -CLIMB_SPEED else 0)
    else p1.vy + GRAVITY
  let vyB := if vyA > 10 then 10 else vyA
  let jumped := s0.keys.jump ∧ (s0.canJump ∨ s0.isClimbing)
  let vyC := if jumped then JUMP_FORCE * (if char = .Luigi then 1.2 else 1.0) else vyB
  let canJump1 := if jumped then false else s0.canJump
  let climb1 := if jumped then false else s0.isClimbing
  let keys1 := if s0.keys.jump then {s0.keys with jump := false} else s0.keys
  {s0 with
    player := Option.some ({p1 with vx := vxF, vy := vyC}),
    abilityCooldown := cd1, invincibilityTimer := inv1,
    canJump := canJump1, isClimbing := climb1, keys := keys1}

/-- Edge-triggered ability dispatch, rejected outright while the cooldown
runs. -/
def abilityStep (char : CharacterType) (s1 : GameState) : GameState :=
  if s1.keys.ability ∧ s1.abilityCooldown = 0 then
    let sa := handleAbility char s1
    {sa with keys := {sa.keys with ability := false}}
  else s1

/-- Advance the player along the x axis by its horizontal velocity. -/
def movePlayerX (s : GameState) : GameState :=
  match s.player with
  | Option.some p => {s with player := Option.some ({p with x := p.x + p.vx})}
  | Option.none => s

/-- Advance the player along the y axis by its vertical velocity. -/
def movePlayerY (s : GameState) : GameState :=
  match s.player with
  | Option.some p => {s with player := Option.some ({p with y := p.y + p.vy})}
  | Option.none => s

/-- Clear the jump eligibility flag while the player is airborne. -/
def resetCanJump (s : GameState) : GameState :=
  match s.player with
  | Option.some p => if p.vy ≠ 0 then {s with canJump := false} else s
  | Option.none => s

/-- Unconditional death when the player falls below the level's extent. -/
def fallDeath (s : GameState) : GameState :=
  match s.player with
  | Option.some p =>
      if p.y > (s.levelHeight : ℚ) * TILE_SIZE then handleDeath s else s
  | Option.none => s

/-- The entity sweep: lifespan countdown, spawning rise, enemy/mushroom
physics, and removal of dead entities. -/
def entitySweep (s : GameState) : GameState :=
  {s with entities := s.entities.filterMap (stepEntity s)}

/-- The player-entity interaction loop over the live entity list. -/
def interactPhase (s : GameState) : GameState :=
  let res := interactLoop s s.entities
  {res.1 with entities := res.2}

/-- One simulation step: the engine's `update` function (no-op once the run
is terminal; otherwise input handling and physics integration, ability
dispatch, axis-separated map collision, airborne flag reset, fall death,
entity sweep and player-entity interactions; rendering excluded). -/
def update (char : CharacterType) (s0 : GameState) : GameState :=
  if s0.gameOver then s0 else
  match s0.player with
  | Option.none => s0
  | Option.some p0 =>
    interactPhase (entitySweep
      ({fallDeath (resetCanJump (handleMapCollision .y (movePlayerY
          (handleMapCollision .x (movePlayerX
            (abilityStep char (integratePlayer char s0 p0))))))) with
        isClimbing := false}))

/-- A 4x4 level whose bottom row is Ground and which is otherwise empty. -/
def restGrid : List TileType :=
  List.replicate 12 .Empty ++ List.replicate 4 .Ground

/-- A Small player standing at rest on the ground row of `restGrid`
(feet exactly on top of the ground at y = 3*32 - 0.8*32). -/
def restPlayer : Entity :=
  { id := 0, type := .Player, x := 32, y := 352/5,
    w := TILE_SIZE * 0.8, h := TILE_SIZE * 0.8, vx := 0, vy := 0 }

/-- Rest state with given invincibility and cooldown timers (no input). -/
def restTimers (t cd : ℕ) : GameState :=
  { keys := {}, player := Option.some restPlayer, entities := [],
    grid := restGrid, levelWidth := 4, levelHeight := 4, canJump := true,
    invincibilityTimer := t, abilityCooldown := cd }

/-- Rest state whose player carries position `X` and horizontal velocity `V`
(the only quantities that change during friction decay at rest). -/
def frictionAt (X V : ℚ) : GameState :=
  { keys := {}, player := Option.some ({restPlayer with x := X, vx := V}),
    entities := [], grid := restGrid, levelWidth := 4, levelHeight := 4,
    canJump := true }

/-- Rest state except the player still carries maximal horizontal velocity. -/
def frictionStart : GameState := frictionAt 32 MOVE_SPEED

/-- Rest state with the ability key pressed and both timers at zero. -/
def peachReady : GameState :=
  { keys := { ability := true }, player := Option.some restPlayer,
    entities := [], grid := restGrid, levelWidth := 4, levelHeight := 4,
    canJump := true }

/-- The exact states of the friction-decay run, one per simulation step:
after 22 steps the horizontal velocity has snapped to exactly zero. -/
def frictionTrace : List GameState :=
  [frictionAt ((4441 : ℚ) / 125) ((441 : ℚ) / 125),
   frictionAt ((120286 : ℚ) / 3125) ((9261 : ℚ) / 3125),
   frictionAt ((3201631 : ℚ) / 78125) ((194481 : ℚ) / 78125),
   frictionAt ((84124876 : ℚ) / 1953125) ((4084101 : ℚ) / 1953125),
   frictionAt ((2188888021 : ℚ) / 48828125) ((85766121 : ℚ) / 48828125),
   frictionAt ((56523289066 : ℚ) / 1220703125) ((1801088541 : ℚ) / 1220703125),
   frictionAt ((1450905086011 : ℚ) / 30517578125) ((37822859361 : ℚ) / 30517578125),
   frictionAt ((37066907196856 : ℚ) / 762939453125) ((794280046581 : ℚ) / 762939453125),
   frictionAt ((943352560899601 : ℚ) / 19073486328125) ((16679880978201 : ℚ) / 19073486328125),
   frictionAt ((23934091523032246 : ℚ) / 476837158203125) ((350277500542221 : ℚ) / 476837158203125),
   frictionAt ((605708115587192791 : ℚ) / 11920928955078125) ((7355827511386641 : ℚ) / 11920928955078125),
   frictionAt ((15297175267418939236 : ℚ) / 298023223876953125) ((154472377739119461 : ℚ) / 298023223876953125),
   frictionAt ((385673301617994989581 : ℚ) / 7450580596923828125) ((3243919932521508681 : ℚ) / 7450580596923828125),
   frictionAt ((9709954859032826421826 : ℚ) / 186264514923095703125) ((68122318582951682301 : ℚ) / 186264514923095703125),
   frictionAt ((244179440166062645873971 : ℚ) / 4656612873077392578125) ((1430568690241985328321 : ℚ) / 4656612873077392578125),
   frictionAt ((6134527946646647838744016 : ℚ) / 116415321826934814453125) ((30041942495081691894741 : ℚ) / 116415321826934814453125),
   frictionAt ((153994079458562911498389961 : ℚ) / 2910383045673370361328125) ((630880792396715529789561 : ℚ) / 2910383045673370361328125),
   frictionAt ((3863100483104403813585329806 : ℚ) / 72759576141834259033203125) ((13248496640331026125580781 : ℚ) / 72759576141834259033203125),
   frictionAt ((96855730507057046888270441551 : ℚ) / 1818989403545856475830078125) ((278218429446951548637196401 : ℚ) / 1818989403545856475830078125),
   frictionAt ((2427235849694812154728142163196 : ℚ) / 45474735088646411895751953125) ((5842587018385982521381124421 : ℚ) / 45474735088646411895751953125),
   frictionAt ((60803590569756409501152557692741 : ℚ) / 1136868377216160297393798828125) ((122694327386105632949003612841 : ℚ) / 1136868377216160297393798828125),
   frictionAt ((60803590569756409501152557692741 : ℚ) / 1136868377216160297393798828125) ((0 : ℚ) / 1)]

/-- The resting point of the friction-decay run. -/
def frictionFinal : GameState :=
  frictionAt ((60803590569756409501152557692741 : ℚ) / 1136868377216160297393798828125) 0

/-- The expected timer states of the Peach shield run: both timers count
down by one on every step after activation, independently, saturating at
zero. -/
def peachTrace : List GameState :=
  (List.range 300).map (fun k => restTimers (179 - k) (299 - k))

/-- The Question-block strike scenario: a 3x4 level with a Question block at
cell (1,1) and a Ground bottom row. -/
def qGrid : List TileType :=
  [.Empty, .Empty, .Empty,
   .Empty, .Question, .Empty,
   .Empty, .Empty, .Empty,
   .Ground, .Ground, .Ground]

/-- A player overlapping the Question cell from below while moving upward. -/
def qPlayer : Entity :=
  { id := 0, type := .Player, x := 35, y := 60,
    w := TILE_SIZE * 0.8, h := TILE_SIZE * 0.8, vx := 0, vy := -5 }

/-- State at the moment the vertical collision pass runs for the strike. -/
def qState : GameState :=
  { keys := {}, player := Option.some qPlayer, entities := [],
    grid := qGrid, levelWidth := 3, levelHeight := 4 }

/-- The state after the first strike, with the player repositioned under the
(now mutated) cell, again moving upward: a second strike of the same cell. -/
def qRestrikeState : GameState :=
  {handleMapCollision .y qState with player := Option.some qPlayer}

/-- The second strike attempted while the player is in Big form. -/
def qRestrikeBigState : GameState :=
  {handleMapCollision .y qState with player := Option.some qPlayer, isBig := true}

/-- A 2x3 level whose middle row is two Spike tiles. -/
def spikeGrid : List TileType :=
  [.Empty, .Empty,
   .Spike, .Spike,
   .Empty, .Empty]

/-- A Small, non-invulnerable player straddling both Spike tiles. -/
def spikeState : GameState :=
  { keys := {}, player := Option.some
      { id := 0, type := .Player, x := 20, y := 35,
        w := TILE_SIZE * 0.8, h := TILE_SIZE * 0.8, vx := 0, vy := 0 },
    entities := [], grid := spikeGrid, levelWidth := 2, levelHeight := 3 }

/-- Number of Mushroom entities whose spawn data belongs to grid cell
`(c, r)` (x at the cell's left edge, `spawnStartY` at the cell's top). -/
def mushAt (s : GameState) (c r : ℤ) : ℕ :=
  (s.entities.filter (fun e => e.type = .Mushroom ∧ e.x = (c : ℚ) * TILE_SIZE ∧
    e.spawnStartY = Option.some ((r : ℚ) * TILE_SIZE))).length

/-- The invariant of C10: the state carries a player whose downward
(vertical) velocity does not exceed 10. -/
def vyInv (s : GameState) : Prop :=
  ∃ p, s.player = Option.some p ∧ p.vy ≤ 10

/-- A step function, a start state and a list of expected successor states:
each list element is the image of its predecessor. -/
def chainEq (step : GameState → GameState) : GameState → List GameState → Prop
  | _, [] => True
  | s, s1 :: rest => step s = s1 ∧ chainEq step s1 rest

instance (step : GameState → GameState) (s : GameState) (l : List GameState) :
    Decidable (chainEq step s l) := by
  induction l generalizing s with
  | nil => exact isTrue trivial
  | cons s1 rest ih => exact @instDecidableAnd _ _ _ (ih s1)

/-! ## Theorems -/

/-- C1 -- The claim as stated is false on the code: a zero-width rectangle
lying strictly inside another yields `checkRectCollision = true` although the
two share no positive area (only a zero-area slice). -/
theorem c1_zero_area_overlap_counterexample :
    checkRectCollision ⟨0, 0, 10, 10⟩ ⟨5, 5, 0, 10⟩ = true ∧
    ¬ sharesPositiveArea ⟨0, 0, 10, 10⟩ ⟨5, 5, 0, 10⟩ := by
  constructor
  · with_unfolding_all rfl
  · intro h
    rcases h with ⟨hx, -⟩
    simp only [Rect.mk.injEq] at hx
    norm_num [max_lt_iff, lt_min_iff] at hx

/-- C1 (amended) -- `checkRectCollision` is symmetric for all rectangles, and
for rectangles of positive width and height it is true iff the two share
positive area on both axes (hence false whenever they only share a boundary). -/
theorem checkRectCollision_symm_posArea (a b : Rect) :
    checkRectCollision a b = checkRectCollision b a ∧
    (0 < a.w ∧ 0 < a.h ∧ 0 < b.w ∧ 0 < b.h →
      (checkRectCollision a b = true ↔ sharesPositiveArea a b)) := by
  constructor
  · simp only [checkRectCollision, decide_eq_decide]
    constructor
    · rintro ⟨h1, h2, h3, h4⟩
      exact ⟨by linarith, by linarith, by linarith, by linarith⟩
    · rintro ⟨h1, h2, h3, h4⟩
      exact ⟨by linarith, by linarith, by linarith, by linarith⟩
  · rintro ⟨haw, hah, hbw, hbh⟩
    simp only [checkRectCollision, decide_eq_true_eq, sharesPositiveArea,
      max_lt_iff, lt_min_iff]
    constructor
    · rintro ⟨h1, h2, h3, h4⟩
      exact ⟨⟨⟨by linarith, by linarith⟩, by linarith, by linarith⟩,
             ⟨⟨by linarith, by linarith⟩, by linarith, by linarith⟩⟩
    · rintro ⟨⟨⟨_, h1⟩, h2, _⟩, ⟨⟨_, h3⟩, h4, _⟩⟩
      exact ⟨by linarith, by linarith, by linarith, by linarith⟩

/-- C1 witness -- the amended theorem applied at concrete rectangles. -/
theorem c1_posArea_witness :
    checkRectCollision ⟨0, 0, 10, 10⟩ ⟨5, 5, 10, 10⟩ =
      checkRectCollision ⟨5, 5, 10, 10⟩ ⟨0, 0, 10, 10⟩ ∧
    (checkRectCollision ⟨0, 0, 10, 10⟩ ⟨5, 5, 10, 10⟩ = true ↔
      sharesPositiveArea ⟨0, 0, 10, 10⟩ ⟨5, 5, 10, 10⟩) :=
  ⟨(checkRectCollision_symm_posArea ⟨0, 0, 10, 10⟩ ⟨5, 5, 10, 10⟩).1,
   (checkRectCollision_symm_posArea ⟨0, 0, 10, 10⟩ ⟨5, 5, 10, 10⟩).2
     (by norm_num)⟩

/-- C2 -- the code evaluated at the repository's own test input
(`physics.test.ts`, zero-dimension test): the test expects `false`, but
`checkRectCollision` returns `true` for a zero-width rectangle strictly
inside the other one. -/
theorem c2_zero_width_code_bug :
    checkRectCollision ⟨0, 0, 10, 10⟩ ⟨5, 5, 0, 10⟩ = true ∧
    checkRectCollision ⟨0, 0, 10, 10⟩ ⟨5, 5, 10, 0⟩ = true := by
  constructor <;> with_unfolding_all rfl

/-- C3 -- `getCollisionSide` returns `none` iff `checkRectCollision` is false;
on overlap it returns a side on the axis of minimum penetration: a horizontal
side when the horizontal overlap is strictly smaller, a vertical side
otherwise. -/
theorem getCollisionSide_none_iff_and_min_axis (r1 r2 : Rect) :
    (getCollisionSide r1 r2 = CollisionSide.none ↔
      checkRectCollision r1 r2 = false) ∧
    (checkRectCollision r1 r2 = true →
      ((overlapX r1 r2 < overlapY r1 r2 →
          getCollisionSide r1 r2 = .left ∨ getCollisionSide r1 r2 = .right) ∧
       (overlapY r1 r2 ≤ overlapX r1 r2 →
          getCollisionSide r1 r2 = .top ∨ getCollisionSide r1 r2 = .bottom))) := by
  by_cases h : checkRectCollision r1 r2 = false
  · refine ⟨by simp [getCollisionSide, h], ?_⟩
    intro htrue
    rw [htrue] at h
    exact absurd h (by simp)
  · have htrue : checkRectCollision r1 r2 = true := by
      revert h; cases checkRectCollision r1 r2 <;> simp
    refine ⟨?_, fun _ => ⟨?_, ?_⟩⟩
    · unfold getCollisionSide
      rw [htrue]
      simp only [Bool.true_eq_false, if_false]
      split_ifs <;> simp
    · intro hmin
      unfold getCollisionSide
      rw [htrue]
      simp only [Bool.true_eq_false, if_false, if_pos hmin]
      split_ifs <;> simp
    · intro hge
      unfold getCollisionSide
      rw [htrue]
      have : ¬ overlapX r1 r2 < overlapY r1 r2 := not_lt.mpr hge
      simp only [Bool.true_eq_false, if_false, if_neg this]
      split_ifs <;> simp

/-- C3 witness -- the theorem applied at concrete overlapping rectangles. -/
theorem c3_min_axis_witness :
    (getCollisionSide ⟨0, 0, 10, 10⟩ ⟨8, 0, 10, 10⟩ = CollisionSide.none ↔
      checkRectCollision ⟨0, 0, 10, 10⟩ ⟨8, 0, 10, 10⟩ = false) ∧
    ((overlapX ⟨0, 0, 10, 10⟩ ⟨8, 0, 10, 10⟩ <
        overlapY ⟨0, 0, 10, 10⟩ ⟨8, 0, 10, 10⟩ →
        getCollisionSide ⟨0, 0, 10, 10⟩ ⟨8, 0, 10, 10⟩ = .left ∨
        getCollisionSide ⟨0, 0, 10, 10⟩ ⟨8, 0, 10, 10⟩ = .right) ∧
     (overlapY ⟨0, 0, 10, 10⟩ ⟨8, 0, 10, 10⟩ ≤
        overlapX ⟨0, 0, 10, 10⟩ ⟨8, 0, 10, 10⟩ →
        getCollisionSide ⟨0, 0, 10, 10⟩ ⟨8, 0, 10, 10⟩ = .top ∨
        getCollisionSide ⟨0, 0, 10, 10⟩ ⟨8, 0, 10, 10⟩ = .bottom)) :=
  ⟨(getCollisionSide_none_iff_and_min_axis ⟨0, 0, 10, 10⟩ ⟨8, 0, 10, 10⟩).1,
   (getCollisionSide_none_iff_and_min_axis ⟨0, 0, 10, 10⟩ ⟨8, 0, 10, 10⟩).2
     (by with_unfolding_all rfl)⟩

/-- C6 -- the damage path: with the invincibility timer running, damage is a
no-op; in Big form the player reverts to Small with a 120-frame
invulnerability window and a positional nudge, and the run does not end;
Small and not invulnerable, the run ends through `handleDeath` (Dead
terminal state, one `onDie` invocation). -/
theorem handleDamage_cases (s : GameState) (p : Entity)
    (hp : s.player = Option.some p) :
    (0 < s.invincibilityTimer → handleDamage s = s) ∧
    (s.invincibilityTimer = 0 → s.isBig = true →
      handleDamage s =
        { s with
            isBig := false,
            invincibilityTimer := 120,
            player := (Option.some
              ({p with y := p.y + (TILE_SIZE * 1.5 - TILE_SIZE * 0.8), vy := -3})) }) ∧
    (s.invincibilityTimer = 0 → s.isBig = false →
      handleDamage s = handleDeath s ∧
      (handleDamage s).gameOver = true ∧
      (handleDamage s).dieCalls = s.dieCalls + 1) := by
  refine ⟨?_, ?_, ?_⟩
  · intro h
    unfold handleDamage
    rw [if_pos h]
  · intro h0 hbig
    unfold handleDamage
    rw [if_neg (by omega)]
    simp only [hbig, if_true, hp]
  · intro h0 hsmall
    unfold handleDamage
    rw [if_neg (by omega)]
    simp only [hsmall, if_false]
    exact ⟨rfl, rfl, rfl⟩

/-- C6 witness -- the theorem applied at a concrete Big-form state with the
invincibility timer at zero. -/
theorem c6_big_damage_witness :
    handleDamage {restTimers 0 0 with isBig := true} =
      { {restTimers 0 0 with isBig := true} with
          isBig := false,
          invincibilityTimer := 120,
          player := (Option.some
            ({restPlayer with
                y := restPlayer.y + (TILE_SIZE * 1.5 - TILE_SIZE * 0.8),
                vy := -3})) } :=
  (handleDamage_cases {restTimers 0 0 with isBig := true} restPlayer rfl).2.1 rfl rfl

/-- C9 -- `getTile` returns `Empty` for every query outside the grid bounds,
and the collision sweep skips such cells outright, so the outside region is
never treated as solid or hazardous. -/
theorem getTile_out_of_bounds_empty (s : GameState) (c r : ℤ)
    (h : c < 0 ∨ (s.levelWidth : ℤ) ≤ c ∨ r < 0 ∨ (s.levelHeight : ℤ) ≤ r) :
    getTile s c r = .Empty ∧
    (∀ axis, mapCollisionCell axis s (r, c) = s) := by
  constructor
  · unfold getTile
    rw [if_pos (by tauto)]
  · intro axis
    unfold mapCollisionCell
    cases hp : s.player with
    | none => rfl
    | some e =>
      simp only
      rw [if_pos (by tauto)]

/-- C9 witness -- the theorem applied at a concrete out-of-bounds query. -/
theorem c9_out_of_bounds_witness :
    getTile (restTimers 0 0) (-1) 0 = .Empty ∧
    mapCollisionCell .y (restTimers 0 0) (0, -1) = restTimers 0 0 :=
  ⟨(getTile_out_of_bounds_empty (restTimers 0 0) (-1) 0 (by norm_num [restTimers])).1,
   (getTile_out_of_bounds_empty (restTimers 0 0) (-1) 0 (by norm_num [restTimers])).2 .y⟩

/-- Auxiliary: a verified chain of step results pins down every iterate of
the step function. -/
theorem chainEq_iterate (step : GameState → GameState) :
    ∀ (l : List GameState) (s : GameState), chainEq step s l →
      ∀ i (hi : i < l.length), step^[i + 1] s = l.get ⟨i, hi⟩ := by
  intro l
  induction l with
  | nil =>
    intro s _ i hi
    exact absurd hi (by simp)
  | cons s1 rest ih =>
    intro s h i hi
    rcases h with ⟨h1, h2⟩
    cases i with
    | zero => simpa using h1
    | succ j =>
      have hj : j < rest.length := by simpa using hi
      have hrec := ih s1 h2 j hj
      have hsplit : step^[j + 1 + 1] s = step^[j + 1] (step s) :=
        Function.iterate_succ_apply step (j + 1) s
      rw [hsplit, h1, hrec]
      rfl

set_option maxRecDepth 8000 in
/-- C7 -- a player at rest on the ground with zero input and residual
horizontal velocity at the movement cap: after 22 simulation steps the
horizontal velocity is exactly 0 (geometric friction decay, then the
sub-epsilon snap), and it stays 0 on every later step. -/
theorem player_friction_reaches_zero :
    ∀ k, 22 ≤ k → ∃ p,
      ((update .Mario)^[k] frictionStart).player = Option.some p ∧ p.vx = 0 := by
  have hchain : chainEq (update .Mario) frictionStart frictionTrace := by
    with_unfolding_all decide
  have hlen : 21 < frictionTrace.length := by
    with_unfolding_all decide
  have h22 : (update .Mario)^[22] frictionStart = frictionFinal := by
    calc (update .Mario)^[21 + 1] frictionStart
        = frictionTrace.get ⟨21, hlen⟩ :=
          chainEq_iterate (update .Mario) frictionTrace frictionStart hchain 21 hlen
      _ = frictionFinal := by with_unfolding_all rfl
  have hfix : update .Mario frictionFinal = frictionFinal := by
    with_unfolding_all decide
  have hstay : ∀ m, (update .Mario)^[m] frictionFinal = frictionFinal := by
    intro m
    induction m with
    | zero => rfl
    | succ n ih => rw [Function.iterate_succ_apply', ih, hfix]
  intro k hk
  obtain ⟨m, rfl⟩ : ∃ m, k = m + 22 := ⟨k - 22, by omega⟩
  rw [Function.iterate_add_apply, h22, hstay]
  exact ⟨_, rfl, rfl⟩

/-- C7 witness -- the theorem applied at exactly 22 steps. -/
theorem c7_friction_witness :
    ∃ p, ((update .Mario)^[22] frictionStart).player = Option.some p ∧ p.vx = 0 :=
  player_friction_reaches_zero 22 (by norm_num)

set_option maxRecDepth 100000 in
set_option maxHeartbeats 8000000 in
/-- C8 -- Peach's shield: activating with both timers at zero sets the
180-frame invincibility window and the 300-frame cooldown on the activation
frame itself, and on every one of the 300 following frames both timers have
counted down together, one per frame, independently (each saturating at
zero); the cooldown does not wait for the shield duration to end. -/
theorem peach_shield_concurrent_timers :
    update .Peach peachReady = restTimers 180 300 ∧
    ∀ k, k < 300 → (update .Peach)^[k + 1] (restTimers 180 300) =
      restTimers (180 - (k + 1)) (300 - (k + 1)) := by
  constructor
  · with_unfolding_all decide
  · have hchain : chainEq (update .Peach) (restTimers 180 300) peachTrace := by
      with_unfolding_all decide
    intro k hk
    have hlen : k < peachTrace.length := by
      simpa [peachTrace] using hk
    have h := chainEq_iterate (update .Peach) peachTrace (restTimers 180 300) hchain k hlen
    rw [h, show (180 - (k + 1) : ℕ) = 179 - k by omega,
        show (300 - (k + 1) : ℕ) = 299 - k by omega]
    simp [peachTrace]

/-- C8 witness -- the theorem applied on the 60th frame after activation. -/
theorem c8_shield_witness :
    update .Peach peachReady = restTimers 180 300 ∧
    (update .Peach)^[59 + 1] (restTimers 180 300) =
      restTimers (180 - (59 + 1)) (300 - (59 + 1)) :=
  ⟨peach_shield_concurrent_timers.1,
   peach_shield_concurrent_timers.2 59 (by norm_num)⟩

set_option maxRecDepth 8000 in
/-- C5 -- the claim is violated by the code: a Small, non-invulnerable player
straddling two Spike tiles receives `handleDamage` once per overlapping spike
cell in each of the two collision passes of a single simulation step, so
`onDie` is invoked four times in one run, and `handleDeath` never checks
`gameOver` before firing the callback again. -/
theorem c5_multiple_onDie_in_one_step :
    (update .Mario spikeState).dieCalls = 4 ∧
    (update .Mario spikeState).winCalls = 0 ∧
    (update .Mario spikeState).gameOver = true := by
  refine ⟨?_, ?_, ?_⟩ <;> with_unfolding_all decide

/-- Auxiliary: `r * W + c ≠ r1 * W + c1` for distinct in-bounds cells. -/
theorem cellIndex_ne {W c c1 r r1 : ℤ} (hW : 0 ≤ W)
    (hc : 0 ≤ c) (hcW : c < W) (hc1 : 0 ≤ c1) (hc1W : c1 < W)
    (hne : ¬(c = c1 ∧ r = r1)) :
    r * W + c ≠ r1 * W + c1 := by
  intro heq
  rcases eq_or_ne r r1 with hr | hr
  · subst hr
    exact hne ⟨by omega, rfl⟩
  · rcases lt_or_gt_of_ne hr with hlt | hlt
    · have h1 : (r + 1) * W ≤ r1 * W :=
        mul_le_mul_of_nonneg_right (by omega) hW
      nlinarith
    · have h1 : (r1 + 1) * W ≤ r * W :=
        mul_le_mul_of_nonneg_right (by omega) hW
      nlinarith

/-- Auxiliary: `handleDamage` touches neither the grid nor the entity
store. -/
theorem handleDamage_grid_entities (s : GameState) :
    (handleDamage s).grid = s.grid ∧ (handleDamage s).entities = s.entities ∧
    (handleDamage s).levelWidth = s.levelWidth ∧
    (handleDamage s).levelHeight = s.levelHeight := by
  unfold handleDamage handleDeath
  split_ifs <;> first
    | exact ⟨rfl, rfl, rfl, rfl⟩
    | (cases s.player <;> exact ⟨rfl, rfl, rfl, rfl⟩)

/-- Auxiliary: `getTile` only depends on the grid and the level bounds. -/
theorem getTile_congr (s s1 : GameState) (hg : s1.grid = s.grid)
    (hw : s1.levelWidth = s.levelWidth) (hh : s1.levelHeight = s.levelHeight)
    (c r : ℤ) : getTile s1 c r = getTile s c r := by
  unfold getTile
  rw [hg, hw, hh]

/-- Auxiliary: `mushAt` only depends on the entity store. -/
theorem mushAt_congr (s s1 : GameState) (he : s1.entities = s.entities)
    (c r : ℤ) : mushAt s1 c r = mushAt s c r := by
  unfold mushAt
  rw [he]

/-- Auxiliary: reading an unrelated index of a mutated grid. -/
theorem getD_set_ne (l : List TileType) (i j : ℕ) (v d : TileType)
    (hij : i ≠ j) : (l.set i v).getD j d = l.getD j d := by
  rw [List.getD_eq_getElem?_getD, List.getD_eq_getElem?_getD,
    List.getElem?_set_ne hij]

/-- Auxiliary: the in-bounds coordinates of a `HardBlock` cell. -/
theorem hardBlock_in_bounds (s : GameState) (c r : ℤ)
    (h : getTile s c r = .HardBlock) :
    0 ≤ r ∧ r < (s.levelHeight : ℤ) ∧ 0 ≤ c ∧ c < (s.levelWidth : ℤ) := by
  by_cases hob : (r < 0 ∨ r ≥ (s.levelHeight : ℤ) ∨ c < 0 ∨ c ≥ (s.levelWidth : ℤ))
  · unfold getTile at h
    rw [if_pos hob] at h
    exact absurd h (by simp)
  · push_neg at hob
    exact ⟨hob.1, hob.2.1, hob.2.2.1, hob.2.2.2⟩

/-- Auxiliary: a `HardBlock` cell reads from the flattened grid. -/
theorem hardBlock_getD (s : GameState) (c r : ℤ)
    (h : getTile s c r = .HardBlock) :
    s.grid.getD (r * s.levelWidth + c).toNat .Empty = .HardBlock := by
  obtain ⟨h1, h2, h3, h4⟩ := hardBlock_in_bounds s c r h
  unfold getTile at h
  rw [if_neg (by omega)] at h
  exact h

/-- Auxiliary: mutating a different cell of the grid leaves a `HardBlock`
cell reading `HardBlock`. -/
theorem set_other_cell (s : GameState) (c r rr cc : ℤ) (v : TileType)
    (hcc0 : 0 ≤ cc) (hccW : cc < (s.levelWidth : ℤ)) (hrr0 : 0 ≤ rr)
    (hne : ¬(cc = c ∧ rr = r))
    (h : getTile s c r = .HardBlock) :
    (s.grid.set (rr * s.levelWidth + cc).toNat v).getD
      (r * s.levelWidth + c).toNat .Empty = .HardBlock := by
  obtain ⟨h1, h2, h3, h4⟩ := hardBlock_in_bounds s c r h
  have hidx : rr * (s.levelWidth : ℤ) + cc ≠ r * (s.levelWidth : ℤ) + c :=
    cellIndex_ne (by positivity) hcc0 hccW h3 h4 hne
  have hnn1 : 0 ≤ rr * (s.levelWidth : ℤ) + cc := by positivity
  have hnn2 : 0 ≤ r * (s.levelWidth : ℤ) + c := by positivity
  have htn : (rr * (s.levelWidth : ℤ) + cc).toNat ≠ (r * (s.levelWidth : ℤ) + c).toNat := by
    omega
  rw [getD_set_ne _ _ _ _ _ htn]
  exact hardBlock_getD s c r h

/-- Auxiliary: spawning a Mushroom for a different cell does not change the
Mushroom count of this cell. -/
theorem mushAt_spawn_ne (s : GameState) (cc rr c r : ℤ)
    (hne : ¬(cc = c ∧ rr = r)) :
    mushAt (spawnMushroom cc rr s) c r = mushAt s c r := by
  have hts : (TILE_SIZE : ℚ) ≠ 0 := by norm_num [TILE_SIZE]
  have hpm : ¬((cc : ℚ) * TILE_SIZE = (c : ℚ) * TILE_SIZE ∧
      Option.some ((rr : ℚ) * TILE_SIZE) = Option.some ((r : ℚ) * TILE_SIZE)) := by
    rintro ⟨h1, h2⟩
    refine hne ⟨?_, ?_⟩
    · exact_mod_cast mul_right_cancel₀ hts h1
    · exact_mod_cast mul_right_cancel₀ hts (Option.some.inj h2)
  unfold mushAt spawnMushroom
  simp only [List.filter_append, List.length_append]
  have hfsingle : ∀ (m : Entity) (p : Entity → Bool), p m = false →
      (List.filter p [m]).length = 0 := by
    intro m p hp
    simp [List.filter, hp]
  rw [hfsingle _ _ (by simp only [decide_eq_false_iff_not]; rintro ⟨-, h1, h2⟩; exact hpm ⟨h1, h2⟩)]
  omega

/-- Auxiliary: solid resolution of one cell never mutates a `HardBlock`
cell and never spawns a Mushroom for it. -/
theorem mapCollisionSolid_hardBlock (axis : Axis) (s : GameState) (e : Entity)
    (tile : TileType) (tileRect : Rect) (rr cc : ℤ)
    (hcc0 : 0 ≤ cc) (hccW : cc < (s.levelWidth : ℤ)) (hrr0 : 0 ≤ rr)
    (htile : getTile s cc rr = tile) (c r : ℤ)
    (h : getTile s c r = .HardBlock) :
    getTile (mapCollisionSolid axis s e tile tileRect rr cc) c r = .HardBlock ∧
    mushAt (mapCollisionSolid axis s e tile tileRect rr cc) c r = mushAt s c r := by
  obtain ⟨hr0, hrH, hc0, hcW⟩ := hardBlock_in_bounds s c r h
  unfold mapCollisionSolid
  split_ifs <;>
  first
    | exact ⟨(getTile_congr _ s rfl rfl rfl c r).trans h, mushAt_congr _ s rfl c r⟩
    | · -- Question strike: the mutated cell differs from the HardBlock cell
        have hq2 : tile = .Question := by assumption
        have hne : ¬(cc = c ∧ rr = r) := by
          rintro ⟨rfl, rfl⟩
          rw [htile, hq2] at h
          exact absurd h (by simp)
        constructor
        · unfold spawnMushroom getTile
          simp only
          rw [if_neg (by omega)]
          exact set_other_cell s c r rr cc .HardBlock hcc0 hccW hrr0 hne h
        · exact (mushAt_spawn_ne _ cc rr c r hne).trans (mushAt_congr _ s rfl c r)
    | · -- Brick break: the mutated cell differs from the HardBlock cell
        have hb2 : tile = .Brick ∧ s.isBig = true := by assumption
        have hne : ¬(cc = c ∧ rr = r) := by
          rintro ⟨rfl, rfl⟩
          rw [htile, hb2.1] at h
          exact absurd h (by simp)
        constructor
        · unfold getTile
          simp only
          rw [if_neg (by omega)]
          exact set_other_cell s c r rr cc .Empty hcc0 hccW hrr0 hne h
        · exact mushAt_congr _ s rfl c r

/-- Auxiliary: the spike hazard check never mutates the grid or the entity
store. -/
theorem mapCollisionSpike_congr (s1 : GameState) (tile : TileType)
    (tileRect : Rect) (c r : ℤ) :
    getTile (mapCollisionSpike s1 tile tileRect) c r = getTile s1 c r ∧
    mushAt (mapCollisionSpike s1 tile tileRect) c r = mushAt s1 c r := by
  unfold mapCollisionSpike
  split_ifs with hspike
  · cases hp : s1.player with
    | none => exact ⟨rfl, rfl⟩
    | some e1 =>
      simp only
      split_ifs with hov
      · obtain ⟨hg, he, hw, hh⟩ := handleDamage_grid_entities s1
        exact ⟨getTile_congr s1 (handleDamage s1) hg hw hh c r,
               mushAt_congr s1 (handleDamage s1) he c r⟩
      · exact ⟨rfl, rfl⟩
  · exact ⟨rfl, rfl⟩

/-- Auxiliary: a cell whose tile is `HardBlock` is never mutated by one
iteration of the collision sweep, and no Mushroom is ever spawned for it. -/
theorem mapCollisionCell_hardBlock (axis : Axis) (s : GameState) (rc : ℤ × ℤ)
    (c r : ℤ) (h : getTile s c r = .HardBlock) :
    getTile (mapCollisionCell axis s rc) c r = .HardBlock ∧
    mushAt (mapCollisionCell axis s rc) c r = mushAt s c r := by
  unfold mapCollisionCell
  cases hp : s.player with
  | none => exact ⟨h, rfl⟩
  | some e =>
    simp only
    by_cases hob : (rc.1 < 0 ∨ rc.1 ≥ (s.levelHeight : ℤ) ∨ rc.2 < 0 ∨ rc.2 ≥ (s.levelWidth : ℤ))
    · rw [if_pos hob]
      exact ⟨h, rfl⟩
    · rw [if_neg hob]
      push_neg at hob
      have hsolid := mapCollisionSolid_hardBlock axis s e (getTile s rc.2 rc.1)
        ⟨(rc.2 : ℚ) * TILE_SIZE, (rc.1 : ℚ) * TILE_SIZE, TILE_SIZE, TILE_SIZE⟩
        rc.1 rc.2 hob.2.2.1 hob.2.2.2 hob.1 rfl c r h
      have hspike := mapCollisionSpike_congr
        (mapCollisionSolid axis s e (getTile s rc.2 rc.1)
          ⟨(rc.2 : ℚ) * TILE_SIZE, (rc.1 : ℚ) * TILE_SIZE, TILE_SIZE, TILE_SIZE⟩
          rc.1 rc.2)
        (getTile s rc.2 rc.1)
        ⟨(rc.2 : ℚ) * TILE_SIZE, (rc.1 : ℚ) * TILE_SIZE, TILE_SIZE, TILE_SIZE⟩ c r
      exact ⟨hspike.1.trans hsolid.1, hspike.2.trans hsolid.2⟩

/-- Auxiliary: a full collision pass never mutates a `HardBlock` cell and
never spawns a Mushroom for it. -/
theorem handleMapCollision_hardBlock (axis : Axis) (s : GameState) (c r : ℤ)
    (h : getTile s c r = .HardBlock) :
    getTile (handleMapCollision axis s) c r = .HardBlock ∧
    mushAt (handleMapCollision axis s) c r = mushAt s c r := by
  unfold handleMapCollision
  cases hp : s.player with
  | none => exact ⟨h, rfl⟩
  | some e =>
    simp only
    clear hp
    generalize cellRange e = l
    induction l generalizing s with
    | nil => exact ⟨h, rfl⟩
    | cons rc rest ih =>
      simp only [List.foldl_cons]
      have hcell := mapCollisionCell_hardBlock axis s rc c r h
      have hrest := ih (mapCollisionCell axis s rc) hcell.1
      exact ⟨hrest.1, hrest.2.trans hcell.2⟩

set_option maxRecDepth 8000 in
/-- C4 -- striking the Question cell from below mutates it to `HardBlock` and
creates exactly one Mushroom collectible for it; a second strike of the same
cell (Small or Big form) leaves the grid unchanged and spawns nothing; and in
general no collision pass ever mutates a `HardBlock` cell or spawns a
Mushroom for it, so the mutation and the spawn happen exactly once. -/
theorem question_block_strike_once :
    (getTile (handleMapCollision .y qState) 1 1 = .HardBlock ∧
     mushAt (handleMapCollision .y qState) 1 1 = 1 ∧
     (handleMapCollision .y qState).entities.length = 1) ∧
    ((handleMapCollision .y qRestrikeState).grid = (handleMapCollision .y qState).grid ∧
     mushAt (handleMapCollision .y qRestrikeState) 1 1 = 1 ∧
     (handleMapCollision .y qRestrikeState).entities.length = 1) ∧
    ((handleMapCollision .y qRestrikeBigState).grid = (handleMapCollision .y qState).grid ∧
     mushAt (handleMapCollision .y qRestrikeBigState) 1 1 = 1 ∧
     (handleMapCollision .y qRestrikeBigState).entities.length = 1) ∧
    (∀ axis s c r, getTile s c r = .HardBlock →
      getTile (handleMapCollision axis s) c r = .HardBlock ∧
      mushAt (handleMapCollision axis s) c r = mushAt s c r) := by
  refine ⟨?_, ?_, ?_, ?_⟩
  · with_unfolding_all decide
  · with_unfolding_all decide
  · with_unfolding_all decide
  · intro axis s c r h
    exact handleMapCollision_hardBlock axis s c r h

set_option maxRecDepth 8000 in
/-- C4 witness -- the general part of the theorem applied at the concrete
post-strike state, whose struck cell is `HardBlock`. -/
theorem c4_strike_witness :
    getTile (handleMapCollision .x (handleMapCollision .y qState)) 1 1 = .HardBlock ∧
    mushAt (handleMapCollision .x (handleMapCollision .y qState)) 1 1 =
      mushAt (handleMapCollision .y qState) 1 1 :=
  question_block_strike_once.2.2.2 .x (handleMapCollision .y qState) 1 1
    (by with_unfolding_all decide)

/-- Auxiliary: `vineLoop` never touches the player. -/
theorem vineLoop_player (pgx : ℤ) :
    ∀ (fuel : ℕ) (g : ℤ) (s : GameState), (vineLoop pgx fuel g s).player = s.player := by
  intro fuel
  induction fuel with
  | zero => intro g s; rfl
  | succ n ih =>
    intro g s
    unfold vineLoop
    split_ifs with h1
    · rfl
    · simp only []
      split_ifs
      · rfl
      · exact (ih (g - 1) (pushVine s pgx g)).trans rfl

/-- Auxiliary: `handleAbility` never touches the player. -/
theorem handleAbility_player (char : CharacterType) (s : GameState) :
    (handleAbility char s).player = s.player := by
  unfold handleAbility
  split
  · rfl
  · rename_i p heq
    cases char with
    | Mario => rfl
    | Luigi => rfl
    | Toad =>
      simp only
      split_ifs
      · rfl
      · exact vineLoop_player _ 8 _ s
    | Peach => rfl

/-- Auxiliary: the damage path preserves the bounded-velocity invariant
(its only velocity write is the upward −3 nudge). -/
theorem vyInv_handleDamage (s : GameState) (h : vyInv s) : vyInv (handleDamage s) := by
  obtain ⟨p, hp, hv⟩ := h
  unfold handleDamage
  split_ifs with h1 h2
  · exact ⟨p, hp, hv⟩
  · simp only []
    split
    · exact ⟨_, rfl, by norm_num⟩
    · exact ⟨p, hp, hv⟩
  · exact ⟨p, hp, hv⟩

/-- Auxiliary: solid resolution preserves the bounded-velocity invariant
(its vertical writes are all to 0). -/
theorem vyInv_mapCollisionSolid (axis : Axis) (s : GameState) (e : Entity)
    (tile : TileType) (tileRect : Rect) (rr cc : ℤ)
    (hp : s.player = Option.some e) (hv : e.vy ≤ 10) :
    vyInv (mapCollisionSolid axis s e tile tileRect rr cc) := by
  unfold mapCollisionSolid
  split_ifs <;>
  first
    | exact ⟨e, hp, hv⟩
    | exact ⟨_, rfl, hv⟩
    | exact ⟨_, rfl, by norm_num⟩

/-- Auxiliary: the spike check preserves the bounded-velocity invariant. -/
theorem vyInv_mapCollisionSpike (s1 : GameState) (tile : TileType)
    (tileRect : Rect) (h : vyInv s1) : vyInv (mapCollisionSpike s1 tile tileRect) := by
  unfold mapCollisionSpike
  split_ifs
  · split
    · split_ifs
      · exact vyInv_handleDamage s1 h
      · exact h
    · exact h
  · exact h

/-- Auxiliary: one cell of the collision sweep preserves the invariant. -/
theorem vyInv_mapCollisionCell (axis : Axis) (s : GameState) (rc : ℤ × ℤ)
    (h : vyInv s) : vyInv (mapCollisionCell axis s rc) := by
  obtain ⟨p, hp, hv⟩ := h
  unfold mapCollisionCell
  split
  · exact ⟨p, hp, hv⟩
  · rename_i e heq
    have hve : e.vy ≤ 10 := by
      rw [heq] at hp
      rw [Option.some.inj hp]
      exact hv
    simp only []
    split_ifs with hob
    · exact ⟨e, heq, hve⟩
    · exact vyInv_mapCollisionSpike _ _ _
        (vyInv_mapCollisionSolid axis s e _ _ rc.1 rc.2 heq hve)

/-- Auxiliary: a full collision pass preserves the invariant. -/
theorem vyInv_handleMapCollision (axis : Axis) (s : GameState) (h : vyInv s) :
    vyInv (handleMapCollision axis s) := by
  unfold handleMapCollision
  split
  · exact h
  · rename_i e heq
    have hgen : ∀ (l : List (ℤ × ℤ)) (s1 : GameState), vyInv s1 →
        vyInv (l.foldl (mapCollisionCell axis) s1) := by
      intro l
      induction l with
      | nil => intro s1 hs; exact hs
      | cons rc rest ih =>
        intro s1 hs
        simp only [List.foldl_cons]
        exact ih _ (vyInv_mapCollisionCell axis s1 rc hs)
    exact hgen _ s h

/-- Auxiliary: the ability phase preserves the invariant. -/
theorem vyInv_abilityStep (char : CharacterType) (s : GameState) (h : vyInv s) :
    vyInv (abilityStep char s) := by
  obtain ⟨p, hp, hv⟩ := h
  unfold abilityStep
  split_ifs
  · exact ⟨p, (handleAbility_player char s).trans hp, hv⟩
  · exact ⟨p, hp, hv⟩

/-- Auxiliary: the horizontal move preserves the invariant. -/
theorem vyInv_movePlayerX (s : GameState) (h : vyInv s) : vyInv (movePlayerX s) := by
  obtain ⟨p, hp, hv⟩ := h
  unfold movePlayerX
  split
  · rename_i p1 heq
    have hv1 : p1.vy ≤ 10 := by
      rw [heq] at hp
      rw [Option.some.inj hp]
      exact hv
    exact ⟨_, rfl, hv1⟩
  · exact ⟨p, hp, hv⟩

/-- Auxiliary: the vertical move preserves the invariant. -/
theorem vyInv_movePlayerY (s : GameState) (h : vyInv s) : vyInv (movePlayerY s) := by
  obtain ⟨p, hp, hv⟩ := h
  unfold movePlayerY
  split
  · rename_i p1 heq
    have hv1 : p1.vy ≤ 10 := by
      rw [heq] at hp
      rw [Option.some.inj hp]
      exact hv
    exact ⟨_, rfl, hv1⟩
  · exact ⟨p, hp, hv⟩

/-- Auxiliary: the airborne-flag reset preserves the invariant. -/
theorem vyInv_resetCanJump (s : GameState) (h : vyInv s) : vyInv (resetCanJump s) := by
  obtain ⟨p, hp, hv⟩ := h
  unfold resetCanJump
  split
  · split_ifs
    · exact ⟨p, hp, hv⟩
    · exact ⟨p, hp, hv⟩
  · exact ⟨p, hp, hv⟩

/-- Auxiliary: the fall-death check preserves the invariant. -/
theorem vyInv_fallDeath (s : GameState) (h : vyInv s) : vyInv (fallDeath s) := by
  obtain ⟨p, hp, hv⟩ := h
  unfold fallDeath
  split
  · split_ifs
    · exact ⟨p, hp, hv⟩
    · exact ⟨p, hp, hv⟩
  · exact ⟨p, hp, hv⟩

/-- Auxiliary: the integrated vertical velocity is clamped to at most 10
(jump impulses are negative, the gravity branch is clamped). -/
theorem ite_vy_le (c1 c2 : Prop) [Decidable c1] [Decidable c2] (vyA : ℚ) :
    (if c1 then JUMP_FORCE * (if c2 then 1.2 else 1.0)
     else (if vyA > 10 then 10 else vyA)) ≤ 10 := by
  split_ifs
  · unfold JUMP_FORCE
    norm_num
  · unfold JUMP_FORCE
    norm_num
  · norm_num
  · exact not_lt.mp (by assumption)

/-- Auxiliary: one interaction preserves the invariant (its vertical writes
are 0, the stomp bounce, or the damage path). -/
theorem vyInv_interactStep (s : GameState) (e : Entity) (h : vyInv s) :
    vyInv (interactStep s e).1 := by
  obtain ⟨p, hp, hv⟩ := h
  unfold interactStep
  split
  · exact ⟨p, hp, hv⟩
  · rename_i p1 heq
    have hv1 : p1.vy ≤ 10 := by
      rw [heq] at hp
      rw [Option.some.inj hp]
      exact hv
    have h0 : (0 : ℚ) ≤ 10 := by norm_num
    have hJF : JUMP_FORCE * 0.5 ≤ 10 := by
      unfold JUMP_FORCE
      norm_num
    split_ifs with hc h1 h2 <;>
    first
      | exact ⟨p1, heq, hv1⟩
      | (split <;>
          first
            | exact ⟨p1, heq, hv1⟩
            | exact ⟨_, rfl, h0⟩
            | exact ⟨_, rfl, hJF⟩
            | exact vyInv_handleDamage s ⟨p1, heq, hv1⟩)

/-- Auxiliary: the entity sweep preserves the invariant. -/
theorem vyInv_entitySweep (s : GameState) (h : vyInv s) : vyInv (entitySweep s) := h

/-- Auxiliary: the interaction loop preserves the invariant. -/
theorem vyInv_interactLoop (l : List Entity) :
    ∀ (s : GameState), vyInv s → vyInv (interactLoop s l).1 := by
  induction l with
  | nil => intro s h; exact h
  | cons e rest ih =>
    intro s h
    exact ih (interactStep s e).1 (vyInv_interactStep s e h)

/-- Auxiliary: the interaction phase preserves the invariant. -/
theorem vyInv_interactPhase (s : GameState) (h : vyInv s) : vyInv (interactPhase s) :=
  vyInv_interactLoop s.entities s h

/-- C10 -- at the end of every active simulation step the player's vertical
velocity is at most 10: gravity integration is clamped to 10, and every
later vertical write in the step is zero or negative (collision zeroing,
jump and stomp impulses, the damage nudge). -/
theorem update_vy_le_ten (char : CharacterType) (s : GameState) (p : Entity)
    (hgo : s.gameOver = false) (hp : s.player = Option.some p) :
    ∃ q, (update char s).player = Option.some q ∧ q.vy ≤ 10 := by
  have hbase : vyInv (integratePlayer char s p) := by
    unfold integratePlayer
    exact ⟨_, rfl, ite_vy_le _ _ _⟩
  have h2 := vyInv_abilityStep char _ hbase
  have h3 := vyInv_movePlayerX _ h2
  have h4 := vyInv_handleMapCollision .x _ h3
  have h5 := vyInv_movePlayerY _ h4
  have h6 := vyInv_handleMapCollision .y _ h5
  have h7 := vyInv_resetCanJump _ h6
  have h8 := vyInv_fallDeath _ h7
  have h9 : vyInv {fallDeath (resetCanJump (handleMapCollision .y (movePlayerY
      (handleMapCollision .x (movePlayerX
        (abilityStep char (integratePlayer char s p))))))) with
      isClimbing := false} := h8
  have h10 := vyInv_interactPhase _ (vyInv_entitySweep _ h9)
  obtain ⟨q, hq, hvq⟩ := h10
  refine ⟨q, ?_, hvq⟩
  unfold update
  rw [if_neg (by rw [hgo]; exact Bool.false_ne_true)]
  split
  · rename_i heqn
    rw [hp] at heqn
    cases heqn
  · rename_i p0 heq
    obtain rfl : p0 = p := by
      rw [hp] at heq
      exact (Option.some.inj heq).symm
    exact hq

/-- C10 witness -- the theorem applied at the concrete rest state. -/
theorem c10_vy_witness :
    ∃ q, (update .Mario (restTimers 0 0)).player = Option.some q ∧ q.vy ≤ 10 :=
  update_vy_le_ten .Mario (restTimers 0 0) restPlayer rfl rfl
